import Mathlib

/-!
# Verification of the CwaWeather backend (src/server.js)

A shallow embedding of the Express weather-proxy server. The upstream CWA
payload shapes are modelled as Lean structures; JavaScript property accesses
that may hit `undefined` (and hence throw a `TypeError`) are modelled with
`Option` and `Except Unit`. Handlers become pure functions from the
configuration (the API key), the request parameter, and an upstream oracle
(a function from the `locationName` query value to the upstream outcome)
to an HTTP response value.
-/

set_option autoImplicit false

deriving instance DecidableEq for Except

namespace CwaWeather

/-- Upstream `parameter` object inside a time entry (`value.parameterName`). -/
structure Parameter where
  parameterName : String
deriving Repr, DecidableEq

/-- One entry of an element's `time` array. -/
structure TimeEntry where
  startTime : String
  endTime : String
  parameter : Parameter
deriving Repr, DecidableEq

/-- One upstream weather element. `time` is `none` when the upstream JSON has
no `time` field on the element (accessing `element.time[i]` then throws). -/
structure WeatherElement where
  elementName : String
  time : Option (List TimeEntry)
deriving Repr, DecidableEq

/-- One reshaped forecast record, as pushed onto `forecasts` (server.js:50-59). -/
structure Forecast where
  startTime : String
  endTime : String
  weather : String
  rain : String
  minTemp : String
  maxTemp : String
  comfort : String
  windSpeed : String
deriving Repr, DecidableEq

/-- `timeCount = weatherElements?.[0]?.time?.length || 0` (server.js:46). -/
def timeCount (weatherElements : List WeatherElement) : Nat :=
  match weatherElements.head? with
  | none => 0
  | some e => (e.time.getD []).length

/-- The `switch (element.elementName)` body (server.js:63-82): each recognized
kind overwrites one field of the forecast record; unknown kinds fall through. -/
def applyKind (name : String) (v : String) (f : Forecast) : Forecast :=
  if name = "Wx" then { f with weather := v }
  else if name = "PoP" then { f with rain := v ++ "%" }
  else if name = "MinT" then { f with minTemp := v ++ "°C" }
  else if name = "MaxT" then { f with maxTemp := v ++ "°C" }
  else if name = "CI" then { f with comfort := v }
  else if name = "WS" then { f with windSpeed := v }
  else f

/-- One iteration of the `forEach` callback (server.js:61-83):
`const value = element.time[i].parameter` is evaluated before the switch, so a
missing `time` array or an out-of-range index throws for every element kind. -/
def applyElement (i : Nat) (f : Forecast) (e : WeatherElement) :
    Except Unit Forecast :=
  match (e.time.getD []).get? i with
  | none => .error ()
  | some entry => .ok (applyKind e.elementName entry.parameter.parameterName f)

/-- The `weatherElements.forEach(...)` loop at slot `i`, threading the mutated
forecast record; a thrown `TypeError` aborts the whole loop. -/
def applyElements (i : Nat) : List WeatherElement → Forecast → Except Unit Forecast
  | [], f => .ok f
  | e :: rest, f =>
    match applyElement i f e with
    | .error u => .error u
    | .ok f' => applyElements i rest f'

/-- The record initializer (server.js:50-59): `startTime`/`endTime` come from
`weatherElements[0].time[i]`, the six weather fields start as `""`. -/
def initForecast (weatherElements : List WeatherElement) (i : Nat) :
    Except Unit Forecast :=
  match weatherElements.head? with
  | none => .error ()
  | some e0 =>
    match (e0.time.getD []).get? i with
    | none => .error ()
    | some entry =>
      .ok { startTime := entry.startTime, endTime := entry.endTime,
            weather := "", rain := "", minTemp := "", maxTemp := "",
            comfort := "", windSpeed := "" }

/-- One iteration of the outer `for` loop (server.js:49-86). -/
def parseSlot (weatherElements : List WeatherElement) (i : Nat) :
    Except Unit Forecast :=
  match initForecast weatherElements i with
  | .error u => .error u
  | .ok f => applyElements i weatherElements f

/-- The outer loop over the slot indices, collecting `forecasts` in order;
an exception at any slot propagates out of `parseWeatherElements`. -/
def parseRange (weatherElements : List WeatherElement) :
    List Nat → Except Unit (List Forecast)
  | [] => .ok []
  | i :: is =>
    match parseSlot weatherElements i with
    | .error u => .error u
    | .ok f =>
      match parseRange weatherElements is with
      | .error u => .error u
      | .ok fs => .ok (f :: fs)

/-- `parseWeatherElements` (server.js:45-89). `Except.error ()` models the
function throwing a `TypeError`. -/
def parseWeatherElements (weatherElements : List WeatherElement) :
    Except Unit (List Forecast) :=
  parseRange weatherElements (List.range (timeCount weatherElements))

/-- One entry of `records.location` of the upstream payload. -/
structure Location where
  locationName : String
  weatherElement : List WeatherElement
deriving Repr, DecidableEq

/-- `response.data.records`: `location` may be absent from the JSON
(`records.location?.[0]`, `records.location || []`). -/
structure CwaRecords where
  datasetDescription : String
  location : Option (List Location)
deriving Repr, DecidableEq

/-- `response.data` on a successful upstream call. -/
structure CwaPayload where
  records : CwaRecords
deriving Repr, DecidableEq

/-- `error.response.data` on an upstream non-2xx reply; its `message` field may
be absent (`error.response.data.message || "..."`). -/
structure CwaErrorBody where
  message : Option String
deriving Repr, DecidableEq

/-- Outcome of the single axios GET issued by `fetchWeatherDataset`:
a 2xx payload, a non-2xx reply (`error.response` present), or a transport
failure with no response at all. -/
inductive UpstreamResult where
  | ok (payload : CwaPayload)
  | httpError (status : Nat) (body : CwaErrorBody)
  | transportError
deriving Repr, DecidableEq

/-- The value `buildLocationWeather` assembles (server.js:102-106). -/
structure LocationWeather where
  city : String
  updateTime : String
  forecasts : List Forecast
deriving Repr, DecidableEq

/-- An HTTP response sent by a handler: `success d` is
`200 {success:true, data:d}`; `failure s err msg d` is
`status(s).json({error:err, message:msg, details?:d})`. -/
inductive Response (α : Type) where
  | success (data : α)
  | failure (status : Nat) (error : String) (message : String)
      (details : Option CwaErrorBody)
deriving Repr, DecidableEq

/-- HTTP status code of a response (`res.json` defaults to 200). -/
def statusOf {α : Type} : Response α → Nat
  | .success _ => 200
  | .failure s _ _ _ => s

/-- `ALLOWED_CITY_NAMES` (server.js:19-42). -/
def ALLOWED_CITY_NAMES : List String :=
  ["基隆市", "臺北市", "新北市", "桃園市", "新竹市", "新竹縣", "苗栗縣",
   "臺中市", "彰化縣", "南投縣", "雲林縣", "嘉義市", "嘉義縣", "臺南市",
   "高雄市", "屏東縣", "宜蘭縣", "花蓮縣", "臺東縣", "澎湖縣", "金門縣",
   "連江縣"]

/-- `!CWA_API_KEY` — the key is falsy when the environment variable is unset
(`none`) or the empty string. -/
def keyMissing (key : Option String) : Bool :=
  key.getD "" = ""

/-- The fixed 500 configuration-error response (server.js:114-119). -/
def configError {α : Type} : Response α :=
  .failure 500 "伺服器設定錯誤" "請在 .env 檔案中設定 CWA_API_KEY" none

/-- The generic 500 response of the `catch` branch when the caught error has
no `response` field (server.js:159-162). -/
def serverError {α : Type} : Response α :=
  .failure 500 "伺服器錯誤" "無法取得天氣資料，請稍後再試" none

/-- The forwarded upstream-error response (server.js:151-157): upstream status
code, upstream message when present, the upstream body as `details`. -/
def cwaError {α : Type} (status : Nat) (body : CwaErrorBody) : Response α :=
  .failure status "CWA API 錯誤" (body.message.getD "無法取得天氣資料") (some body)

/-- The 400 response for a name outside the allow-list (server.js:122-127). -/
def invalidCityError {α : Type} : Response α :=
  .failure 400 "不支援的縣市"
    ("請使用以下縣市名稱：" ++ String.intercalate "、" ALLOWED_CITY_NAMES) none

/-- `buildLocationWeather` (server.js:102-106); propagates a throw from
`parseWeatherElements`. -/
def buildLocationWeather (location : Location) (datasetDescription : String) :
    Except Unit LocationWeather :=
  match parseWeatherElements location.weatherElement with
  | .error u => .error u
  | .ok fs => .ok { city := location.locationName,
                    updateTime := datasetDescription, forecasts := fs }

/-- The common tail of the two single-region handlers: inspect
`records.location?.[0]`, 404 when absent, else build and send the record;
a throw inside the `try` lands in the generic 500 branch of `catch`
(the thrown `TypeError` has no `response` field). -/
def singleLocationResponse (payload : CwaPayload) (notFoundMsg : String) :
    Response LocationWeather :=
  match (payload.records.location.getD []).head? with
  | none => .failure 404 "查無資料" notFoundMsg none
  | some loc =>
    match buildLocationWeather loc payload.records.datasetDescription with
    | .error _ => serverError
    | .ok w => .success w

/-- `getCityWeather` (server.js:112-164). `cityNameParam` is the route
parameter; `req.params.cityName || ""` defaults it to `""`, and URL-decoding
is the identity on the decoded names the theorems quantify over. `upstream`
maps the `locationName` query value to the axios outcome. -/
def getCityWeather (key : Option String) (cityNameParam : Option String)
    (upstream : String → UpstreamResult) : Response LocationWeather :=
  if keyMissing key then configError
  else
    let cityName := cityNameParam.getD ""
    if cityName ∈ ALLOWED_CITY_NAMES then
      match upstream cityName with
      | .transportError => serverError
      | .httpError s b => cwaError s b
      | .ok payload =>
        singleLocationResponse payload ("無法取得 " ++ cityName ++ " 天氣資料")
    else invalidCityError

/-- `getKaohsiungWeather` (server.js:171-222): the fixed-region handler. -/
def getKaohsiungWeather (key : Option String)
    (upstream : String → UpstreamResult) : Response LocationWeather :=
  if keyMissing key then configError
  else
    match upstream "高雄市" with
    | .transportError => serverError
    | .httpError s b => cwaError s b
    | .ok payload => singleLocationResponse payload "無法取得高雄市天氣資料"

/-- `locations.map(buildLocationWeather ...)` where a throw at any entry
aborts the whole map (server.js:248-250). -/
def buildAll (datasetDescription : String) :
    List Location → Except Unit (List LocationWeather)
  | [] => .ok []
  | l :: ls =>
    match buildLocationWeather l datasetDescription with
    | .error u => .error u
    | .ok w =>
      match buildAll datasetDescription ls with
      | .error u => .error u
      | .ok ws => .ok (w :: ws)

/-- `getAllCityWeather` (server.js:228-272): fetch with the empty filter,
404 on zero locations, else one record per location. -/
def getAllCityWeather (key : Option String)
    (upstream : String → UpstreamResult) : Response (List LocationWeather) :=
  if keyMissing key then configError
  else
    match upstream "" with
    | .transportError => serverError
    | .httpError s b => cwaError s b
    | .ok payload =>
      let locations := payload.records.location.getD []
      if locations.length = 0 then
        .failure 404 "查無資料" "無法取得全縣市天氣資料" none
      else
        match buildAll payload.records.datasetDescription locations with
        | .error _ => serverError
        | .ok ws => .success ws

/-- The `endpoints` object of the root route (server.js:302-307). -/
structure Endpoints where
  kaohsiung : String
  all : String
  city : String
  health : String
deriving Repr, DecidableEq

/-- The body of the root route (server.js:275-309). -/
structure RootInfo where
  message : String
  allowedCityNames : List String
  endpoints : Endpoints
deriving Repr, DecidableEq

/-- The `/` handler (server.js:275-309); it never fails. -/
def rootHandler : Response RootInfo :=
  .success
    { message := "歡迎使用 CWA 天氣預報 API",
      allowedCityNames := ALLOWED_CITY_NAMES,
      endpoints :=
        { kaohsiung := "/api/weather/kaohsiung", all := "/api/weather/all",
          city := "/api/weather/city/:cityName", health := "/api/health" } }

/-- The body of `/api/health` (server.js:311-313). -/
structure HealthBody where
  status : String
  timestamp : String
deriving Repr, DecidableEq

/-- The `/api/health` handler; `now` stands for
`new Date().toISOString()`. It never fails. -/
def healthHandler (now : String) : Response HealthBody :=
  .success { status := "OK", timestamp := now }

/-- The forecasts of a successful parse (`[]` when the parse throws); used
only to state what a successful handler response carries. -/
def parseOk (weatherElements : List WeatherElement) : List Forecast :=
  match parseWeatherElements weatherElements with
  | .ok fs => fs
  | .error _ => []

/-- A single `MinT` element of value `"20"` at one time slot. -/
def demoMinT : List WeatherElement := [⟨"MinT", some [⟨"s", "e", ⟨"20"⟩⟩]⟩]

/-- A single `Wx` element with one time entry. -/
def wxOne : WeatherElement := ⟨"Wx", some [⟨"s", "e", ⟨"晴"⟩⟩]⟩

/-- An element of unknown kind whose `time` array is empty. -/
def fooEmpty : WeatherElement := ⟨"Foo", some []⟩

/-- An element of unknown kind with one time entry of its own. -/
def fooCovered : WeatherElement := ⟨"Foo", some [⟨"a", "b", ⟨"x"⟩⟩]⟩

/-- An element array with one `PoP`, one `MinT` and one `MaxT` element. -/
def demoThree : List WeatherElement :=
  [⟨"PoP", some [⟨"s", "e", ⟨"50"⟩⟩]⟩,
   ⟨"MinT", some [⟨"s", "e", ⟨"20"⟩⟩]⟩,
   ⟨"MaxT", some [⟨"s", "e", ⟨"30"⟩⟩]⟩]

/-- An element array with only an unknown-kind element. -/
def demoFoo : List WeatherElement := [⟨"Foo", some [⟨"t1", "t2", ⟨"x"⟩⟩]⟩]

/-- The record `parseWeatherElements demoFoo` produces. -/
def demoFooRecord : Forecast := ⟨"t1", "t2", "", "", "", "", "", ""⟩

/-- An upstream payload with an empty `location` array. -/
def emptyPayload : CwaPayload := ⟨⟨"desc", some []⟩⟩

/-- An upstream payload with one location, `高雄市`, carrying `demoMinT`. -/
def onePayload : CwaPayload := ⟨⟨"desc", some [⟨"高雄市", demoMinT⟩]⟩⟩

/-- An upstream payload whose first (and only) location is `臺北市`, used
against a request for a different region. -/
def mismatchPayload : CwaPayload := ⟨⟨"desc", some [⟨"臺北市", demoMinT⟩]⟩⟩

/-- The entry `weatherElements[0].time[i]`, used to state which time entry a
forecast record's `startTime`/`endTime` come from. -/
def firstTimeEntry (weatherElements : List WeatherElement) (i : Nat) :
    Option TimeEntry :=
  match weatherElements.head? with
  | none => none
  | some e0 => (e0.time.getD []).get? i

/-- Whether `elementName` is one of the six kinds the switch recognizes. -/
def isKnownKind (name : String) : Bool :=
  name == "Wx" || name == "PoP" || name == "MinT" || name == "MaxT" ||
    name == "CI" || name == "WS"

/-- The precondition under which the reshaper does not throw: every element's
`time` array (an absent one counting as empty) covers all `timeCount` slots. -/
def covers (weatherElements : List WeatherElement) : Prop :=
  ∀ e ∈ weatherElements, timeCount weatherElements ≤ (e.time.getD []).length

instance (we : List WeatherElement) : Decidable (covers we) :=
  List.decidableBAll _ we

theorem applyKind_preserve (name v : String) (f : Forecast) :
    (applyKind name v f).startTime = f.startTime ∧
    (applyKind name v f).endTime = f.endTime ∧
    (name ≠ "Wx" → (applyKind name v f).weather = f.weather) ∧
    (name ≠ "PoP" → (applyKind name v f).rain = f.rain) ∧
    (name ≠ "MinT" → (applyKind name v f).minTemp = f.minTemp) ∧
    (name ≠ "MaxT" → (applyKind name v f).maxTemp = f.maxTemp) ∧
    (name ≠ "CI" → (applyKind name v f).comfort = f.comfort) ∧
    (name ≠ "WS" → (applyKind name v f).windSpeed = f.windSpeed) := by
  unfold applyKind
  split_ifs <;> simp_all

theorem applyElement_preserve (i : Nat) (f f' : Forecast) (e : WeatherElement)
    (h : applyElement i f e = .ok f') :
    f'.startTime = f.startTime ∧
    f'.endTime = f.endTime ∧
    (e.elementName ≠ "Wx" → f'.weather = f.weather) ∧
    (e.elementName ≠ "PoP" → f'.rain = f.rain) ∧
    (e.elementName ≠ "MinT" → f'.minTemp = f.minTemp) ∧
    (e.elementName ≠ "MaxT" → f'.maxTemp = f.maxTemp) ∧
    (e.elementName ≠ "CI" → f'.comfort = f.comfort) ∧
    (e.elementName ≠ "WS" → f'.windSpeed = f.windSpeed) := by
  unfold applyElement at h
  cases hg : (e.time.getD []).get? i with
  | none => rw [hg] at h; cases h
  | some entry =>
    rw [hg] at h
    cases h
    exact applyKind_preserve e.elementName entry.parameter.parameterName f

theorem applyElements_preserve (i : Nat) (es : List WeatherElement)
    (f f' : Forecast) (h : applyElements i es f = .ok f') :
    f'.startTime = f.startTime ∧
    f'.endTime = f.endTime ∧
    ((∀ e ∈ es, e.elementName ≠ "Wx") → f'.weather = f.weather) ∧
    ((∀ e ∈ es, e.elementName ≠ "PoP") → f'.rain = f.rain) ∧
    ((∀ e ∈ es, e.elementName ≠ "MinT") → f'.minTemp = f.minTemp) ∧
    ((∀ e ∈ es, e.elementName ≠ "MaxT") → f'.maxTemp = f.maxTemp) ∧
    ((∀ e ∈ es, e.elementName ≠ "CI") → f'.comfort = f.comfort) ∧
    ((∀ e ∈ es, e.elementName ≠ "WS") → f'.windSpeed = f.windSpeed) := by
  induction es generalizing f with
  | nil =>
    cases h
    simp
  | cons e rest ih =>
    unfold applyElements at h
    cases ha : applyElement i f e with
    | error u => rw [ha] at h; cases h
    | ok f1 =>
      rw [ha] at h
      obtain ⟨s1, e1, w1, r1, mi1, ma1, c1, ws1⟩ := applyElement_preserve i f f1 e ha
      obtain ⟨s2, e2, w2, r2, mi2, ma2, c2, ws2⟩ := ih f1 h
      refine ⟨s2.trans s1, e2.trans e1, ?_, ?_, ?_, ?_, ?_, ?_⟩ <;>
        intro hall <;> simp only [List.mem_cons] at hall
      · exact (w2 fun x hx => hall x (Or.inr hx)).trans (w1 (hall e (Or.inl rfl)))
      · exact (r2 fun x hx => hall x (Or.inr hx)).trans (r1 (hall e (Or.inl rfl)))
      · exact (mi2 fun x hx => hall x (Or.inr hx)).trans (mi1 (hall e (Or.inl rfl)))
      · exact (ma2 fun x hx => hall x (Or.inr hx)).trans (ma1 (hall e (Or.inl rfl)))
      · exact (c2 fun x hx => hall x (Or.inr hx)).trans (c1 (hall e (Or.inl rfl)))
      · exact (ws2 fun x hx => hall x (Or.inr hx)).trans (ws1 (hall e (Or.inl rfl)))

theorem initForecast_spec (we : List WeatherElement) (i : Nat) (f : Forecast)
    (h : initForecast we i = .ok f) :
    ∃ entry, firstTimeEntry we i = some entry ∧
      f = { startTime := entry.startTime, endTime := entry.endTime,
            weather := "", rain := "", minTemp := "", maxTemp := "",
            comfort := "", windSpeed := "" } := by
  unfold initForecast at h
  unfold firstTimeEntry
  cases hh : we.head? with
  | none => rw [hh] at h; cases h
  | some e0 =>
    simp only [hh] at h ⊢
    cases hg : (e0.time.getD []).get? i with
    | none =>
      simp only [hg] at h
      exact Except.noConfusion h
    | some entry =>
      simp only [hg] at h
      cases h
      exact ⟨entry, rfl, rfl⟩

theorem parseSlot_fields (we : List WeatherElement) (i : Nat) (f : Forecast)
    (h : parseSlot we i = .ok f) :
    (∃ entry, firstTimeEntry we i = some entry ∧
      f.startTime = entry.startTime ∧ f.endTime = entry.endTime) ∧
    ((∀ e ∈ we, e.elementName ≠ "Wx") → f.weather = "") ∧
    ((∀ e ∈ we, e.elementName ≠ "PoP") → f.rain = "") ∧
    ((∀ e ∈ we, e.elementName ≠ "MinT") → f.minTemp = "") ∧
    ((∀ e ∈ we, e.elementName ≠ "MaxT") → f.maxTemp = "") ∧
    ((∀ e ∈ we, e.elementName ≠ "CI") → f.comfort = "") ∧
    ((∀ e ∈ we, e.elementName ≠ "WS") → f.windSpeed = "") := by
  unfold parseSlot at h
  cases hi : initForecast we i with
  | error u => rw [hi] at h; cases h
  | ok f0 =>
    rw [hi] at h
    obtain ⟨entry, hentry, hf0⟩ := initForecast_spec we i f0 hi
    obtain ⟨s, e, w, r, mi, ma, c, ws⟩ := applyElements_preserve i we f0 f h
    subst hf0
    exact ⟨⟨entry, hentry, s, e⟩, w, r, mi, ma, c, ws⟩

theorem parseRange_length (we : List WeatherElement) (is : List Nat)
    (fs : List Forecast) (h : parseRange we is = .ok fs) :
    fs.length = is.length := by
  induction is generalizing fs with
  | nil => cases h; rfl
  | cons i rest ih =>
    unfold parseRange at h
    cases hs : parseSlot we i with
    | error u => rw [hs] at h; cases h
    | ok f =>
      rw [hs] at h
      cases hr : parseRange we rest with
      | error u => rw [hr] at h; cases h
      | ok fs' =>
        rw [hr] at h
        cases h
        simp [ih fs' hr]

theorem parseRange_get (we : List WeatherElement) (is : List Nat)
    (fs : List Forecast) (h : parseRange we is = .ok fs) :
    ∀ j (hj : j < fs.length) (hj' : j < is.length),
      parseSlot we (is.get ⟨j, hj'⟩) = .ok (fs.get ⟨j, hj⟩) := by
  induction is generalizing fs with
  | nil => intro j hj hj'; exact absurd hj' (Nat.not_lt_zero j)
  | cons i rest ih =>
    unfold parseRange at h
    cases hs : parseSlot we i with
    | error u => rw [hs] at h; cases h
    | ok f =>
      rw [hs] at h
      cases hr : parseRange we rest with
      | error u => rw [hr] at h; cases h
      | ok fs' =>
        rw [hr] at h
        cases h
        intro j hj hj'
        cases j with
        | zero => exact hs
        | succ j' =>
          exact ih fs' hr j' (Nat.lt_of_succ_lt_succ hj)
            (Nat.lt_of_succ_lt_succ hj')

theorem parseRange_mem (we : List WeatherElement) (is : List Nat)
    (fs : List Forecast) (h : parseRange we is = .ok fs) :
    ∀ f ∈ fs, ∃ i ∈ is, parseSlot we i = .ok f := by
  induction is generalizing fs with
  | nil => cases h; intro f hf; cases hf
  | cons i rest ih =>
    unfold parseRange at h
    cases hs : parseSlot we i with
    | error u => rw [hs] at h; cases h
    | ok f0 =>
      rw [hs] at h
      cases hr : parseRange we rest with
      | error u => rw [hr] at h; cases h
      | ok fs' =>
        rw [hr] at h
        cases h
        intro f hf
        cases hf with
        | head => exact ⟨i, List.mem_cons_self i rest, hs⟩
        | tail _ hf' =>
          obtain ⟨i', hi', hsl⟩ := ih fs' hr f hf'
          exact ⟨i', List.mem_cons_of_mem i hi', hsl⟩

theorem applyElements_ok_entries (i : Nat) (es : List WeatherElement)
    (f f' : Forecast) (h : applyElements i es f = .ok f') :
    ∀ e ∈ es, ∃ entry, (e.time.getD []).get? i = some entry := by
  induction es generalizing f with
  | nil => intro e he; cases he
  | cons e0 rest ih =>
    unfold applyElements at h
    cases ha : applyElement i f e0 with
    | error u => rw [ha] at h; cases h
    | ok f1 =>
      rw [ha] at h
      intro e he
      cases he with
      | head =>
        unfold applyElement at ha
        cases hg : (e0.time.getD []).get? i with
        | none => rw [hg] at ha; cases ha
        | some entry => exact ⟨entry, rfl⟩
      | tail _ he' => exact ih f1 h e he'

theorem applyElements_total (i : Nat) (es : List WeatherElement) (f : Forecast)
    (h : ∀ e ∈ es, i < (e.time.getD []).length) :
    ∃ f', applyElements i es f = .ok f' := by
  induction es generalizing f with
  | nil => exact ⟨f, rfl⟩
  | cons e0 rest ih =>
    have hi := h e0 (List.mem_cons_self e0 rest)
    obtain ⟨f', hf'⟩ :=
      ih (applyKind e0.elementName
            ((e0.time.getD []).get ⟨i, hi⟩).parameter.parameterName f)
        (fun e he => h e (List.mem_cons_of_mem _ he))
    refine ⟨f', ?_⟩
    simp only [applyElements, applyElement, List.get?_eq_get hi]
    exact hf'

theorem initForecast_total (we : List WeatherElement) (i : Nat)
    (h : i < timeCount we) : ∃ f, initForecast we i = .ok f := by
  unfold timeCount at h
  unfold initForecast
  cases hh : we.head? with
  | none => rw [hh] at h; exact absurd h (Nat.not_lt_zero i)
  | some e0 =>
    simp only [hh] at h ⊢
    rw [List.get?_eq_get h]
    exact ⟨_, rfl⟩

theorem parseSlot_total (we : List WeatherElement) (i : Nat)
    (hi : i < timeCount we) (hc : covers we) :
    ∃ f, parseSlot we i = .ok f := by
  obtain ⟨f0, h0⟩ := initForecast_total we i hi
  obtain ⟨f, hf⟩ :=
    applyElements_total i we f0 (fun e he => lt_of_lt_of_le hi (hc e he))
  exact ⟨f, by unfold parseSlot; rw [h0]; exact hf⟩

theorem parseRange_total (we : List WeatherElement) (is : List Nat)
    (h : ∀ i ∈ is, ∃ f, parseSlot we i = .ok f) :
    ∃ fs, parseRange we is = .ok fs := by
  induction is with
  | nil => exact ⟨[], rfl⟩
  | cons i rest ih =>
    obtain ⟨f, hf⟩ := h i (List.mem_cons_self i rest)
    obtain ⟨fs, hfs⟩ := ih (fun j hj => h j (List.mem_cons_of_mem i hj))
    exact ⟨f :: fs, by unfold parseRange; rw [hf, hfs]⟩

theorem parse_total_of_covers (we : List WeatherElement) (hc : covers we) :
    ∃ fs, parseWeatherElements we = .ok fs := by
  unfold parseWeatherElements
  exact parseRange_total we _
    (fun i hi => parseSlot_total we i (List.mem_range.mp hi) hc)

theorem parse_ok_covers (we : List WeatherElement) (fs : List Forecast)
    (h : parseWeatherElements we = .ok fs) : covers we := by
  intro e he
  by_cases h0 : timeCount we = 0
  · rw [h0]; exact Nat.zero_le _
  · unfold parseWeatherElements at h
    have hlen := parseRange_length we _ fs h
    have hn : timeCount we - 1 < timeCount we :=
      Nat.sub_lt (Nat.pos_of_ne_zero h0) Nat.one_pos
    have hj' : timeCount we - 1 < (List.range (timeCount we)).length := by
      simpa using hn
    have hj : timeCount we - 1 < fs.length := by
      rw [hlen]; simpa using hn
    have hs := parseRange_get we _ fs h (timeCount we - 1) hj hj'
    rw [List.get_range] at hs
    unfold parseSlot at hs
    cases hi : initForecast we (timeCount we - 1) with
    | error u => rw [hi] at hs; cases hs
    | ok f0 =>
      rw [hi] at hs
      obtain ⟨entry, hg⟩ := applyElements_ok_entries _ we f0 _ hs e he
      obtain ⟨hlt, -⟩ := List.get?_eq_some.mp hg
      omega

theorem applyElements_append (i : Nat) (es1 es2 : List WeatherElement)
    (f : Forecast) :
    applyElements i (es1 ++ es2) f =
      match applyElements i es1 f with
      | .error u => .error u
      | .ok f' => applyElements i es2 f' := by
  induction es1 generalizing f with
  | nil => rfl
  | cons e rest ih =>
    simp only [List.cons_append, applyElements]
    cases applyElement i f e with
    | error u => rfl
    | ok f1 => exact ih f1

theorem applyKind_unknown (name v : String) (f : Forecast)
    (h : isKnownKind name = false) : applyKind name v f = f := by
  unfold isKnownKind at h
  simp only [Bool.or_eq_false_iff, beq_eq_false_iff_ne] at h
  obtain ⟨⟨⟨⟨⟨h1, h2⟩, h3⟩, h4⟩, h5⟩, h6⟩ := h
  unfold applyKind
  split_ifs <;> simp_all

theorem applyElement_unknown (i : Nat) (f : Forecast) (e : WeatherElement)
    (hk : isKnownKind e.elementName = false)
    (hc : i < (e.time.getD []).length) : applyElement i f e = .ok f := by
  simp only [applyElement, List.get?_eq_get hc]
  rw [applyKind_unknown _ _ _ hk]

theorem timeCount_insert (we1 we2 : List WeatherElement) (e : WeatherElement)
    (hne : we1 ≠ []) :
    timeCount (we1 ++ e :: we2) = timeCount (we1 ++ we2) := by
  unfold timeCount
  cases we1 with
  | nil => exact absurd rfl hne
  | cons a t => rfl

theorem parseSlot_insert (we1 we2 : List WeatherElement) (e : WeatherElement)
    (hne : we1 ≠ []) (hk : isKnownKind e.elementName = false) (i : Nat)
    (hc : i < (e.time.getD []).length) :
    parseSlot (we1 ++ e :: we2) i = parseSlot (we1 ++ we2) i := by
  have hh : (we1 ++ e :: we2).head? = (we1 ++ we2).head? := by
    cases we1 with
    | nil => exact absurd rfl hne
    | cons a t => rfl
  have hinit : initForecast (we1 ++ e :: we2) i = initForecast (we1 ++ we2) i := by
    unfold initForecast; rw [hh]
  unfold parseSlot
  rw [hinit]
  cases initForecast (we1 ++ we2) i with
  | error u => rfl
  | ok f =>
    show applyElements i (we1 ++ e :: we2) f = applyElements i (we1 ++ we2) f
    rw [applyElements_append, applyElements_append]
    cases h1 : applyElements i we1 f with
    | error u => rfl
    | ok f1 =>
      show applyElements i (e :: we2) f1 = applyElements i we2 f1
      simp only [applyElements, applyElement_unknown i f1 e hk hc]

theorem parseRange_congr (weA weB : List WeatherElement) (is : List Nat)
    (h : ∀ i ∈ is, parseSlot weA i = parseSlot weB i) :
    parseRange weA is = parseRange weB is := by
  induction is with
  | nil => rfl
  | cons i rest ih =>
    unfold parseRange
    rw [h i (List.mem_cons_self i rest),
      ih (fun j hj => h j (List.mem_cons_of_mem i hj))]

/-- C1: every record produced by `parseWeatherElements` carries all six
weather fields as strings (they are `String` fields of `Forecast` by
construction, never undefined or missing), and each field whose upstream
element kind is absent from the array equals the empty string. -/
theorem C1_total_field_coverage (we : List WeatherElement) (fs : List Forecast)
    (h : parseWeatherElements we = .ok fs) (f : Forecast) (hf : f ∈ fs) :
    ((∀ e ∈ we, e.elementName ≠ "Wx") → f.weather = "") ∧
    ((∀ e ∈ we, e.elementName ≠ "PoP") → f.rain = "") ∧
    ((∀ e ∈ we, e.elementName ≠ "MinT") → f.minTemp = "") ∧
    ((∀ e ∈ we, e.elementName ≠ "MaxT") → f.maxTemp = "") ∧
    ((∀ e ∈ we, e.elementName ≠ "CI") → f.comfort = "") ∧
    ((∀ e ∈ we, e.elementName ≠ "WS") → f.windSpeed = "") := by
  unfold parseWeatherElements at h
  obtain ⟨i, hi, hs⟩ := parseRange_mem we _ fs h f hf
  exact (parseSlot_fields we i f hs).2

theorem C1_total_field_coverage_witness :
    demoFooRecord.weather = "" ∧ demoFooRecord.rain = "" ∧
    demoFooRecord.minTemp = "" ∧ demoFooRecord.maxTemp = "" ∧
    demoFooRecord.comfort = "" ∧ demoFooRecord.windSpeed = "" := by
  have h := C1_total_field_coverage demoFoo [demoFooRecord] (by decide)
    demoFooRecord (by decide)
  exact ⟨h.1 (by decide), h.2.1 (by decide), h.2.2.1 (by decide),
    h.2.2.2.1 (by decide), h.2.2.2.2.1 (by decide), h.2.2.2.2.2 (by decide)⟩

/-- C2: when the element array is empty or the first element has no time
entries (`timeCount = 0`), the reshaper returns the empty sequence rather
than an error; and whenever it returns, it returns exactly `timeCount`
records, the `i`-th being the result of processing time slot `i`, with
`startTime`/`endTime` taken from the first element's `i`-th time entry —
preserving upstream time order. -/
theorem C2_time_axis (we : List WeatherElement) :
    (timeCount we = 0 → parseWeatherElements we = .ok []) ∧
    ∀ fs, parseWeatherElements we = .ok fs →
      fs.length = timeCount we ∧
      ∀ j (hj : j < fs.length),
        parseSlot we j = .ok (fs.get ⟨j, hj⟩) ∧
        ∃ entry, firstTimeEntry we j = some entry ∧
          (fs.get ⟨j, hj⟩).startTime = entry.startTime ∧
          (fs.get ⟨j, hj⟩).endTime = entry.endTime := by
  constructor
  · intro h0
    unfold parseWeatherElements
    rw [h0]
    rfl
  · intro fs h
    unfold parseWeatherElements at h
    have hlen := parseRange_length we _ fs h
    have hlen' : fs.length = timeCount we := by simpa using hlen
    refine ⟨hlen', ?_⟩
    intro j hj
    have hj' : j < (List.range (timeCount we)).length := by
      rw [List.length_range, ← hlen']
      exact hj
    have hs := parseRange_get we _ fs h j hj hj'
    rw [List.get_range] at hs
    obtain ⟨⟨entry, hentry, hst, hen⟩, -⟩ := parseSlot_fields we j _ hs
    exact ⟨hs, entry, hentry, hst, hen⟩

theorem C2_time_axis_witness :
    ([⟨"s", "e", "", "", "20°C", "", "", ""⟩] : List Forecast).length =
      timeCount demoMinT :=
  ((C2_time_axis demoMinT).2 [⟨"s", "e", "", "", "20°C", "", "", ""⟩]
    (by decide)).1

/-- C3 counterexample: the claim says suffixes are appended to exactly two
of the six output fields and every other field passes the upstream value
through unchanged; but `parseWeatherElements` changes three fields (`rain`
gets `%`, and both `minTemp` and `maxTemp` get `°C`), so whichever two
fields the claim designates, some remaining field is not passed through
unchanged. -/
theorem C3_suffix_cex :
    parseWeatherElements demoThree =
      .ok [⟨"s", "e", "", "50%", "20°C", "30°C", "", ""⟩] ∧
    "50%" ≠ "50" ∧ "20°C" ≠ "20" ∧ "30°C" ≠ "30" := by decide

/-- C3 amended: suffixes are appended literally to three of the six output
fields — `%` to `rain`, `°C` to both `minTemp` and `maxTemp` — while the
remaining three (`weather`, `comfort`, `windSpeed`) receive the upstream
parameter value unchanged; in particular a single `MinT` element of value
`"20"` at one time slot yields one record with `minTemp = "20°C"` and all
other weather fields at their empty-string defaults. -/
theorem C3_suffixes (s e v : String) :
    parseWeatherElements [⟨"Wx", some [⟨s, e, ⟨v⟩⟩]⟩] =
      .ok [⟨s, e, v, "", "", "", "", ""⟩] ∧
    parseWeatherElements [⟨"PoP", some [⟨s, e, ⟨v⟩⟩]⟩] =
      .ok [⟨s, e, "", v ++ "%", "", "", "", ""⟩] ∧
    parseWeatherElements [⟨"MinT", some [⟨s, e, ⟨v⟩⟩]⟩] =
      .ok [⟨s, e, "", "", v ++ "°C", "", "", ""⟩] ∧
    parseWeatherElements [⟨"MaxT", some [⟨s, e, ⟨v⟩⟩]⟩] =
      .ok [⟨s, e, "", "", "", v ++ "°C", "", ""⟩] ∧
    parseWeatherElements [⟨"CI", some [⟨s, e, ⟨v⟩⟩]⟩] =
      .ok [⟨s, e, "", "", "", "", v, ""⟩] ∧
    parseWeatherElements [⟨"WS", some [⟨s, e, ⟨v⟩⟩]⟩] =
      .ok [⟨s, e, "", "", "", "", "", v⟩] := by
  refine ⟨?_, ?_, ?_, ?_, ?_, ?_⟩ <;> rfl

/-- C4 counterexample: the presence of an unknown-kind element is not always
harmless — one with a time array shorter than `timeCount` makes the reshaper
throw, and one in first position redefines the time axis and so changes the
output records. -/
theorem C4_unknown_cex :
    parseWeatherElements [wxOne, fooEmpty] = .error () ∧
    parseWeatherElements [fooCovered, wxOne] ≠ parseWeatherElements [wxOne] := by
  decide

/-- C4 amended: an element whose `elementName` is not one of the six
recognized kinds is ignored by the element-kind switch — inserting it at any
position other than the first, provided its time array covers all `timeCount`
slots (the unconditional `element.time[i].parameter` access), leaves the
reshaper's output unchanged and causes no error. -/
theorem C4_unknown_ignored (we1 we2 : List WeatherElement) (e : WeatherElement)
    (hne : we1 ≠ []) (hk : isKnownKind e.elementName = false)
    (hc : timeCount (we1 ++ we2) ≤ (e.time.getD []).length) :
    parseWeatherElements (we1 ++ e :: we2) = parseWeatherElements (we1 ++ we2) := by
  unfold parseWeatherElements
  rw [timeCount_insert we1 we2 e hne]
  exact parseRange_congr _ _ _ (fun i hi =>
    parseSlot_insert we1 we2 e hne hk i
      (lt_of_lt_of_le (List.mem_range.mp hi) hc))

theorem C4_unknown_ignored_witness :
    parseWeatherElements [wxOne, fooCovered] = parseWeatherElements [wxOne] :=
  C4_unknown_ignored [wxOne] [] fooCovered (by decide) (by decide) (by decide)

/-- C9: the reshaper is total exactly on inputs where every element's time
array (a missing one counting as empty) has length at least `timeCount`;
on any other input it throws instead of leaving fields at their
empty-string defaults. -/
theorem C9_totality (we : List WeatherElement) :
    ((∃ fs, parseWeatherElements we = .ok fs) ↔ covers we) ∧
    (¬ covers we → parseWeatherElements we = .error ()) := by
  constructor
  · constructor
    · rintro ⟨fs, h⟩
      exact parse_ok_covers we fs h
    · exact parse_total_of_covers we
  · intro hnc
    cases hp : parseWeatherElements we with
    | ok fs => exact absurd (parse_ok_covers we fs hp) hnc
    | error u => cases u; rfl

theorem C9_totality_witness :
    parseWeatherElements [wxOne, fooEmpty] = .error () :=
  (C9_totality [wxOne, fooEmpty]).2 (by decide)

theorem singleLocationResponse_ne_invalid (payload : CwaPayload) (msg : String) :
    singleLocationResponse payload msg ≠ invalidCityError := by
  cases hh : (payload.records.location.getD []).head? with
  | none =>
    have h1 : singleLocationResponse payload msg =
        .failure 404 "查無資料" msg none := by
      simp [singleLocationResponse, hh]
    rw [h1]
    intro heq
    injection heq with e1 e2 e3 e4
    exact absurd e2 (by decide)
  | some loc =>
    cases hb : buildLocationWeather loc payload.records.datasetDescription with
    | error u =>
      have h1 : singleLocationResponse payload msg = serverError := by
        simp [singleLocationResponse, hh, hb]
      rw [h1]
      decide
    | ok w =>
      have h1 : singleLocationResponse payload msg = .success w := by
        simp [singleLocationResponse, hh, hb]
      rw [h1]
      intro heq
      exact Response.noConfusion heq

/-- C5: a request for a region in the 22-name allow-list never produces the
400 validation error, whatever the key and the upstream do; a request for
any other (URL-decoded) name — the empty string included — is answered with
the 400 response listing the full allow-list, identically for every upstream
oracle, i.e. without calling the upstream (assuming the API key is
configured, whose absence takes precedence per C6). -/
theorem C5_allow_list (param : Option String) (key : Option String)
    (upstream : String → UpstreamResult) :
    ((param.getD "") ∈ ALLOWED_CITY_NAMES →
      getCityWeather key param upstream ≠ invalidCityError) ∧
    ((param.getD "") ∉ ALLOWED_CITY_NAMES → keyMissing key = false →
      getCityWeather key param upstream = invalidCityError) := by
  constructor
  · intro hmem
    by_cases hkm : keyMissing key = true
    · have h1 : getCityWeather key param upstream = configError := by
        simp [getCityWeather, hkm]
      rw [h1]
      decide
    · have hkm' : keyMissing key = false := by
        revert hkm; cases keyMissing key <;> simp
      cases hup : upstream (param.getD "") with
      | transportError =>
        have h1 : getCityWeather key param upstream = serverError := by
          simp [getCityWeather, hkm', hmem, hup]
        rw [h1]
        decide
      | httpError s b =>
        have h1 : getCityWeather key param upstream = cwaError s b := by
          simp [getCityWeather, hkm', hmem, hup]
        rw [h1]
        intro heq
        unfold cwaError invalidCityError at heq
        injection heq with e1 e2 e3 e4
        exact absurd e2 (by decide)
      | ok payload =>
        have h1 : getCityWeather key param upstream =
            singleLocationResponse payload
              ("無法取得 " ++ param.getD "" ++ " 天氣資料") := by
          simp [getCityWeather, hkm', hmem, hup]
        rw [h1]
        exact singleLocationResponse_ne_invalid payload _
  · intro hmem hk
    simp [getCityWeather, hk, hmem]

theorem C5_allow_list_witness :
    getCityWeather (some "k") (some "高雄市") (fun _ => .transportError) ≠
      invalidCityError ∧
    getCityWeather (some "k") (some "火星市") (fun _ => .transportError) =
      invalidCityError :=
  ⟨(C5_allow_list (some "高雄市") (some "k") (fun _ => .transportError)).1
      (by decide),
   (C5_allow_list (some "火星市") (some "k") (fun _ => .transportError)).2
      (by decide) rfl⟩

/-- C6: when the API key is unset (or empty, both falsy), each of the three
data handlers returns the fixed 500 configuration-error response — for every
request parameter and every upstream oracle, hence without contacting the
upstream and without crashing — while the root and health handlers still
respond 200. -/
theorem C6_missing_key (key : Option String) (hk : keyMissing key = true)
    (param : Option String) (upstream : String → UpstreamResult)
    (now : String) :
    getCityWeather key param upstream = configError ∧
    getKaohsiungWeather key upstream = configError ∧
    getAllCityWeather key upstream = configError ∧
    statusOf rootHandler = 200 ∧
    statusOf (healthHandler now) = 200 := by
  refine ⟨?_, ?_, ?_, rfl, rfl⟩ <;>
    simp [getCityWeather, getKaohsiungWeather, getAllCityWeather, hk]

theorem C6_missing_key_witness :
    getCityWeather none (some "高雄市") (fun _ => .transportError) =
      configError ∧
    getKaohsiungWeather none (fun _ => .transportError) = configError ∧
    getAllCityWeather none (fun _ => .transportError) = configError ∧
    statusOf rootHandler = 200 ∧
    statusOf (healthHandler "2026-10-11T00:00:00.000Z") = 200 :=
  C6_missing_key none rfl (some "高雄市") (fun _ => .transportError)
    "2026-10-11T00:00:00.000Z"

theorem buildAll_ok (dd : String) (ls : List Location)
    (h : ∀ l ∈ ls, ∃ fs, parseWeatherElements l.weatherElement = .ok fs) :
    buildAll dd ls = .ok (ls.map fun l =>
      { city := l.locationName, updateTime := dd,
        forecasts := parseOk l.weatherElement }) := by
  induction ls with
  | nil => rfl
  | cons l rest ih =>
    obtain ⟨fs, hfs⟩ := h l (List.mem_cons_self l rest)
    have hrest := ih (fun x hx => h x (List.mem_cons_of_mem l hx))
    simp only [buildAll, buildLocationWeather, hfs, hrest, List.map_cons]
    simp [parseOk, hfs]

/-- C7: the all-regions handler consults the upstream only at the empty
region filter; on a payload with zero location entries (or none at all) it
responds 404 `查無資料`; otherwise it responds success with exactly one
location-weather record per returned location in upstream order, each with
that location's name, its reshaped forecasts, and the shared
`datasetDescription` as `updateTime`. -/
theorem C7_all_regions (key : Option String) (hk : keyMissing key = false)
    (upstream : String → UpstreamResult) (payload : CwaPayload)
    (hu : upstream "" = .ok payload) :
    (payload.records.location.getD [] = [] →
      getAllCityWeather key upstream =
        .failure 404 "查無資料" "無法取得全縣市天氣資料" none) ∧
    (∀ locs, payload.records.location.getD [] = locs → locs ≠ [] →
      (∀ l ∈ locs, ∃ fs, parseWeatherElements l.weatherElement = .ok fs) →
      getAllCityWeather key upstream =
        .success (locs.map fun l =>
          { city := l.locationName,
            updateTime := payload.records.datasetDescription,
            forecasts := parseOk l.weatherElement })) ∧
    (∀ u2 : String → UpstreamResult, u2 "" = upstream "" →
      getAllCityWeather key u2 = getAllCityWeather key upstream) := by
  refine ⟨?_, ?_, ?_⟩
  · intro h0
    simp [getAllCityWeather, hk, hu, h0]
  · intro locs hlocs hne hall
    have hb := buildAll_ok payload.records.datasetDescription locs hall
    simp only [getAllCityWeather, hk, Bool.false_eq_true, if_false, hu, hlocs]
    rw [if_neg (by simpa using hne), hb]
  · intro u2 hu2
    unfold getAllCityWeather
    rw [hu2]

theorem C7_all_regions_witness :
    getAllCityWeather (some "k") (fun _ => .ok emptyPayload) =
      .failure 404 "查無資料" "無法取得全縣市天氣資料" none ∧
    getAllCityWeather (some "k") (fun _ => .ok onePayload) =
      .success [⟨"高雄市", "desc", [⟨"s", "e", "", "", "20°C", "", "", ""⟩]⟩] := by
  constructor
  · exact (C7_all_regions (some "k") rfl (fun _ => .ok emptyPayload)
      emptyPayload rfl).1 rfl
  · rw [(C7_all_regions (some "k") rfl (fun _ => .ok onePayload)
      onePayload rfl).2.1 [⟨"高雄市", demoMinT⟩] rfl (by decide)
      (by
        intro l hl
        rw [List.mem_singleton] at hl
        subst hl
        exact ⟨_, rfl⟩)]
    decide

/-- C8: every handler distinguishes the two upstream failure modes — a
non-2xx upstream reply is forwarded with the upstream's own status code,
its message, and its body as `details`, while a transport failure with no
response yields the generic 500 with no details; the two error responses
always differ, and each is the handler's final answer for the request. -/
theorem C8_upstream_failures (key : Option String) (hk : keyMissing key = false)
    (upstream : String → UpstreamResult) :
    (∀ param s b, (param.getD "") ∈ ALLOWED_CITY_NAMES →
      upstream (param.getD "") = .httpError s b →
      getCityWeather key param upstream = cwaError s b) ∧
    (∀ param, (param.getD "") ∈ ALLOWED_CITY_NAMES →
      upstream (param.getD "") = .transportError →
      getCityWeather key param upstream = serverError) ∧
    (∀ s b, upstream "高雄市" = .httpError s b →
      getKaohsiungWeather key upstream = cwaError s b) ∧
    (upstream "高雄市" = .transportError →
      getKaohsiungWeather key upstream = serverError) ∧
    (∀ s b, upstream "" = .httpError s b →
      getAllCityWeather key upstream = cwaError s b) ∧
    (upstream "" = .transportError →
      getAllCityWeather key upstream = serverError) ∧
    (∀ s b, (cwaError s b : Response LocationWeather) ≠ serverError) := by
  refine ⟨?_, ?_, ?_, ?_, ?_, ?_, ?_⟩
  · intro param s b hmem hup
    simp [getCityWeather, hk, hmem, hup]
  · intro param hmem hup
    simp [getCityWeather, hk, hmem, hup]
  · intro s b hup
    simp [getKaohsiungWeather, hk, hup]
  · intro hup
    simp [getKaohsiungWeather, hk, hup]
  · intro s b hup
    simp [getAllCityWeather, hk, hup]
  · intro hup
    simp [getAllCityWeather, hk, hup]
  · intro s b heq
    unfold cwaError serverError at heq
    injection heq with h1 h2 h3 h4
    exact absurd h2 (by decide)

theorem C8_upstream_failures_witness :
    getKaohsiungWeather (some "k") (fun _ => .httpError 502 ⟨some "oops"⟩) =
      cwaError 502 ⟨some "oops"⟩ ∧
    getAllCityWeather (some "k") (fun _ => .transportError) = serverError :=
  ⟨(C8_upstream_failures (some "k") rfl
      (fun _ => .httpError 502 ⟨some "oops"⟩)).2.2.1 502 ⟨some "oops"⟩ rfl,
   (C8_upstream_failures (some "k") rfl
      (fun _ => .transportError)).2.2.2.2.2.1 rfl⟩

/-- C10: on any successful upstream payload with at least one location
entry, the named-region and fixed-region handlers respond 200 success built
from the first entry — the output `city` is that entry's `locationName` —
with no check that it equals the requested region. -/
theorem C10_first_location (key : Option String) (hk : keyMissing key = false)
    (param : Option String) (hmem : (param.getD "") ∈ ALLOWED_CITY_NAMES)
    (upstream : String → UpstreamResult) (payload : CwaPayload)
    (loc : Location) (rest : List Location) (fs : List Forecast)
    (hloc : payload.records.location = some (loc :: rest))
    (hparse : parseWeatherElements loc.weatherElement = .ok fs) :
    (upstream (param.getD "") = .ok payload →
      getCityWeather key param upstream =
        .success ⟨loc.locationName, payload.records.datasetDescription, fs⟩) ∧
    (upstream "高雄市" = .ok payload →
      getKaohsiungWeather key upstream =
        .success ⟨loc.locationName, payload.records.datasetDescription, fs⟩) := by
  constructor
  · intro hup
    simp [getCityWeather, hk, hmem, hup, singleLocationResponse,
      buildLocationWeather, hloc, hparse]
  · intro hup
    simp [getKaohsiungWeather, hk, hup, singleLocationResponse,
      buildLocationWeather, hloc, hparse]

theorem C10_first_location_witness :
    getCityWeather (some "k") (some "高雄市") (fun _ => .ok mismatchPayload) =
      .success ⟨"臺北市", "desc", [⟨"s", "e", "", "", "20°C", "", "", ""⟩]⟩ ∧
    "臺北市" ≠ "高雄市" :=
  ⟨(C10_first_location (some "k") rfl (some "高雄市") (by decide)
      (fun _ => .ok mismatchPayload) mismatchPayload ⟨"臺北市", demoMinT⟩ []
      [⟨"s", "e", "", "", "20°C", "", "", ""⟩] rfl (by decide)).1 rfl,
   by decide⟩

end CwaWeather
